import Mathlib

/-
Verification development for the multi-provider image-generation
orchestrator (AWS Bedrock gateway usage example).

The embedding models the Python sources:
  - setup_stable_diffusion.py : class StableDiffusionImageGenerator
    (list_available_models, generate_image_stability_ai, generate_image_titan,
     save_image_from_base64, generate_image)
  - stable_diffusion_image_generator.py : generate_image_via_gateway,
    generate_image_direct_bedrock, save_image_from_base64, main
  - claude_gateway.py : get_available_models, call_claude_model

Strings are modeled as lists of characters; the external transport
(HTTP via requests, the boto3 SDK) is a parameter; file IO is assumed to
succeed, so a save succeeds exactly when base64 decoding succeeds, and the
bytes written are tracked explicitly.
-/

/-- Strings of the embedding: Python str modeled as a list of characters. -/
abbrev Str := List Char

/-- Coerce a Lean string literal to the embedding string type. -/
def str (s : String) : Str := s.data

/-- Model of Python str.startswith: the first argument is the pattern. -/
def py_startswith : Str → Str → Bool
  | [], _ => true
  | _ :: _, [] => false
  | c :: cs, d :: ds => c = d && py_startswith cs ds

/-- Model of the Python substring test (pat in s): the first argument is the pattern. -/
def py_contains (pat : Str) : Str → Bool
  | [] => pat.isEmpty
  | c :: rest => py_startswith pat (c :: rest) || py_contains pat rest

/-- Model of Python str.lower for one ASCII character. -/
def py_lower_char (c : Char) : Char :=
  if 'A' ≤ c ∧ c ≤ 'Z' then Char.ofNat (c.toNat + 32) else c

/-- Model of Python str.lower (ASCII range, which covers model identifiers). -/
def py_lower (s : Str) : Str := s.map py_lower_char

/-- Model of Python str.replace with single-character arguments. -/
def py_replace (a b : Char) (s : Str) : Str :=
  s.map (fun c => if c = a then b else c)

/-- Model of Python str.split with a single-character separator. -/
def py_split (sep : Char) : Str → List Str
  | [] => [[]]
  | c :: rest =>
    match py_split sep rest with
    | [] => [[]]
    | s :: ss => if c = sep then [] :: s :: ss else (c :: s) :: ss

/-- Decimal digit character. -/
def digitChar (n : Nat) : Char := Char.ofNat (48 + n)

/-- Fuel-driven decimal rendering helper. -/
def natToStrAux : Nat → Nat → Str
  | 0, _ => []
  | fuel + 1, n =>
    if n < 10 then [digitChar n]
    else natToStrAux fuel (n / 10) ++ [digitChar (n % 10)]

/-- Decimal rendering of a natural number, as Python f-strings render an int. -/
def natToStr (n : Nat) : Str := natToStrAux (n + 1) n

/-- Value of one base64 alphabet character (A-Z, a-z, 0-9, plus, slash). -/
def b64val (c : Char) : Option Nat :=
  if 'A' ≤ c && c ≤ 'Z' then some (c.toNat - 65)
  else if 'a' ≤ c && c ≤ 'z' then some (c.toNat - 97 + 26)
  else if '0' ≤ c && c ≤ '9' then some (c.toNat - 48 + 52)
  else if c = '+' then some 62
  else if c = '/' then some 63
  else none

/-- Whether a character belongs to the base64 alphabet with padding. -/
def b64alpha (c : Char) : Bool := (b64val c).isSome || c = '='

/-- Decode base64 four-character groups (with trailing padding) into bytes.
Models the grouping step of the Python stdlib decoder base64.b64decode. -/
def b64group : Str → Option (List Nat)
  | [] => some []
  | a :: b :: c :: d :: rest =>
    match b64val a, b64val b with
    | some va, some vb =>
      if c = '=' then
        if d = '=' ∧ rest = [] then some [va * 4 + vb / 16]
        else none
      else
        match b64val c with
        | some vc =>
          if d = '=' then
            if rest = [] then some [va * 4 + vb / 16, (vb % 16) * 16 + vc / 4]
            else none
          else
            match b64val d with
            | some vd =>
              (b64group rest).map
                (fun tl =>
                  (va * 4 + vb / 16) ::
                  ((vb % 16) * 16 + vc / 4) ::
                  ((vc % 4) * 64 + vd) :: tl)
            | none => none
        | none => none
    | _, _ => none
  | _ => none

/-- Model of the Python stdlib decoder base64.b64decode (default validation:
characters outside the alphabet are discarded before grouping); returns the
decoded bytes, or none when the call would raise a decoding error. -/
def b64decode (s : Str) : Option (List Nat) :=
  b64group (s.filter b64alpha)

/-- Embedding of save_image_from_base64 (both copies are identical on this
point): strips a data-URL header by splitting on the comma and keeping the
second piece, then base64-decodes. Returns the bytes written on success
(the Python function returns True after writing them) and none when the
function catches an exception and returns False. File IO is assumed to
succeed, so failure is exactly decode failure. -/
def save_image_from_base64 (b64 : Str) : Option (List Nat) :=
  let stripped : Option Str :=
    if py_startswith (str "data:image") b64
    then (py_split ',' b64).get? 1
    else some b64
  match stripped with
  | none => none
  | some d => b64decode d

/-- One artifact object of the Stability AI response family: the optional
base64 field holds the encoded payload when the key is present. -/
structure Artifact where
  base64 : Option Str
deriving DecidableEq

/-- A parsed response body as inspected by generate_image: the artifacts
key (Stability AI family) or the images key (Titan family), each optional. -/
structure SDResponse where
  artifacts : Option (List Artifact)
  images : Option (List Str)
deriving DecidableEq

/-- Sanitization of a model identifier for filenames, from generate_image:
model_id.replace of colon then of dot, each by an underscore. -/
def sanitize (mid : Str) : Str := py_replace '.' '_' (py_replace ':' '_' mid)

/-- Filename built by StableDiffusionImageGenerator.generate_image for the
payload at index i of the response of model mid, with the timestamp ts
captured once at the start of the call. -/
def mkFilename (mid ts : Str) (i : Nat) : Str :=
  str "generated_image_" ++ sanitize mid ++ str "_" ++ ts ++ str "_" ++
    natToStr i ++ str ".png"

/-- Filename built by main in stable_diffusion_image_generator.py: no
provider component, only timestamp and payload index. -/
def mkFilenameMain (ts : Str) (i : Nat) : Str :=
  str "generated_image_" ++ ts ++ str "_" ++ natToStr i ++ str ".png"

/-- The artifacts loop of generate_image: enumerate the artifact list from
index i, and for each artifact holding a base64 field, attempt the save;
the first successful save returns its filename (the Python code returns
right there). The second component records the files written. -/
def tryArtifacts (mid ts : Str) : Nat → List Artifact → Option Str × List (Str × List Nat)
  | _, [] => (none, [])
  | i, a :: rest =>
    match a.base64 with
    | none => tryArtifacts mid ts (i + 1) rest
    | some b =>
      match save_image_from_base64 b with
      | some bytes => (some (mkFilename mid ts i), [(mkFilename mid ts i, bytes)])
      | none => tryArtifacts mid ts (i + 1) rest

/-- The images loop of generate_image (Titan family): every list element is
an encoded payload; the first successful save returns its filename. -/
def tryImages (mid ts : Str) : Nat → List Str → Option Str × List (Str × List Nat)
  | _, [] => (none, [])
  | i, b :: rest =>
    match save_image_from_base64 b with
    | some bytes => (some (mkFilename mid ts i), [(mkFilename mid ts i, bytes)])
    | none => tryImages mid ts (i + 1) rest

/-- The effect of one iteration of the artifacts loop of generate_image on
a single artifact: the bytes written when the artifact holds a base64 field
whose save succeeds, none otherwise (field absent, or decode failure). -/
def saveArtifact (a : Artifact) : Option (List Nat) :=
  match a.base64 with
  | some b => save_image_from_base64 b
  | none => none

/-- One provider attempt of generate_image: call the generation function
(the transport t absorbs the prompt and the per-family wire request), then
branch on the artifacts key first, else the images key, as the Python code
does with its if-elif on the response dictionary. -/
def attemptModel (t : Str → Option SDResponse) (ts mid : Str) :
    Option Str × List (Str × List Nat) :=
  match t mid with
  | none => (none, [])
  | some r =>
    match r.artifacts with
    | some arts => tryArtifacts mid ts 0 arts
    | none =>
      match r.images with
      | some imgs => tryImages mid ts 0 imgs
      | none => (none, [])

/-- Embedding of StableDiffusionImageGenerator.generate_image: iterate the
model list in order, return the filename of the first successful save, and
return none when the list is exhausted. The timestamp ts is the one value
captured at the start of the call; the second component records every file
written during the call. -/
def generate_image (t : Str → Option SDResponse) (ts : Str) :
    List Str → Option Str × List (Str × List Nat)
  | [] => (none, [])
  | mid :: rest =>
    match attemptModel t ts mid with
    | (some fname, ws) => (some fname, ws)
    | (none, ws) =>
      let out := generate_image t ts rest
      (out.1, ws ++ out.2)

/-- One element of the data list of an OpenAI-style image response: the
b64_json field is present or absent. -/
structure OpenAIImage where
  b64_json : Option Str
deriving DecidableEq

/-- An OpenAI-style image generation response body: the data key holds the
image list when present. -/
structure OpenAIResp where
  data : Option (List OpenAIImage)
deriving DecidableEq

/-- The data loop of main in stable_diffusion_image_generator.py: for each
payload, a timestamp is drawn (a now() call, modeled by the clock indexed
by the draw counter n), the filename carries no provider component, and the
loop stops at the first successful save. Returns the filename on success,
the files written, and the updated draw counter. -/
def mainTryData (clock : Nat → Str) :
    Nat → Nat → List OpenAIImage → Option Str × List (Str × List Nat) × Nat
  | n, _, [] => (none, [], n)
  | n, i, img :: rest =>
    let ts := clock n
    match img.b64_json with
    | some b =>
      match save_image_from_base64 b with
      | some bytes => (some (mkFilenameMain ts i), [(mkFilenameMain ts i, bytes)], n + 1)
      | none => mainTryData clock (n + 1) (i + 1) rest
    | none => mainTryData clock (n + 1) (i + 1) rest

/-- The artifacts loop of main: the timestamp is drawn only for artifacts
holding a base64 field (the now() call sits inside that branch), the
filename again carries no provider component. -/
def mainTryArts (clock : Nat → Str) :
    Nat → Nat → List Artifact → Option Str × List (Str × List Nat) × Nat
  | n, _, [] => (none, [], n)
  | n, i, a :: rest =>
    match a.base64 with
    | some b =>
      let ts := clock n
      match save_image_from_base64 b with
      | some bytes => (some (mkFilenameMain ts i), [(mkFilenameMain ts i, bytes)], n + 1)
      | none => mainTryArts clock (n + 1) (i + 1) rest
    | none => mainTryArts clock n (i + 1) rest

/-- Embedding of the model loop of main in stable_diffusion_image_generator.py:
for each model identifier, first the gateway attempt g and its data list,
then on failure the direct Bedrock attempt d and its artifacts list; stop at
the first success, else move to the next model. The Python success flag is
the first component being some filename; writes are accumulated. -/
def mainGenerate (g : Str → Option OpenAIResp) (d : Str → Option SDResponse)
    (clock : Nat → Str) : Nat → List Str → Option Str × List (Str × List Nat)
  | _, [] => (none, [])
  | n, mid :: rest =>
    let s1 : Option Str × List (Str × List Nat) × Nat :=
      match g mid with
      | some resp =>
        match resp.data with
        | some imgs => mainTryData clock n 0 imgs
        | none => (none, [], n)
      | none => (none, [], n)
    match s1 with
    | (some f, w1, _) => (some f, w1)
    | (none, w1, n1) =>
      let s2 : Option Str × List (Str × List Nat) × Nat :=
        match d mid with
        | some resp =>
          match resp.artifacts with
          | some arts => mainTryArts clock n1 0 arts
          | none => (none, [], n1)
        | none => (none, [], n1)
      match s2 with
      | (some f, w2, _) => (some f, w1 ++ w2)
      | (none, w2, n2) =>
        let out := mainGenerate g d clock n2 rest
        (out.1, w1 ++ w2 ++ out.2)

/-- Outcome of an HTTP request as seen by the calling Python code: either a
response with a status code and an already-parsed body, or a raised
exception (connection error, timeout, parse failure). -/
inductive HttpOutcome (β : Type) where
  | response (status : Nat) (body : β)
  | exc
deriving DecidableEq

/-- Embedding of generate_image_via_gateway: on status 200 return the parsed
body, on any other status print and return None, on an exception print and
return None; the function never lets the fault escape. -/
def generate_image_via_gateway (h : HttpOutcome OpenAIResp) : Option OpenAIResp :=
  match h with
  | .response s body => if s = 200 then some body else none
  | .exc => none

/-- Outcome of a boto3 invoke_model call: a parsed body or a raised
exception. -/
inductive InvokeOutcome (β : Type) where
  | ok (body : β)
  | exc
deriving DecidableEq

/-- Embedding of StableDiffusionImageGenerator.generate_image_stability_ai:
the whole call sits in a try block, an exception is caught, printed, and
turned into a returned None. The wire-request construction is absorbed into
the opaque outcome. generate_image_direct_bedrock and generate_image_titan
have the same error shape. -/
def generate_image_stability_ai (o : InvokeOutcome SDResponse) : Option SDResponse :=
  match o with
  | .ok body => some body
  | .exc => none

/-- One model entry of the gateway model listing. -/
structure ModelEntry where
  id : Str
deriving DecidableEq

/-- The parsed body of the gateway models endpoint: the data key holds the
entry list when present (the Python code reads it with a default of an
empty list). -/
structure ModelsBody where
  data : Option (List ModelEntry)
deriving DecidableEq

/-- Embedding of get_available_models in claude_gateway.py: on status 200
return the identifiers of the listed models, on any other status print and
return an empty list, on an exception print and return an empty list. -/
def get_available_models (h : HttpOutcome ModelsBody) : List Str :=
  match h with
  | .response s body => if s = 200 then (body.data.getD []).map (·.id) else []
  | .exc => []

/-- Embedding of the capability filter of call_claude_model: keep the models
whose lowercased identifier contains the keyword (in the source the keyword
is the literal claude; here it is the parameter of the discover contract,
and list_available_models applies the same shape with the keywords stable,
diffusion, image, titan). -/
def discover (keyword : Str) (models : List Str) : List Str :=
  models.filter (fun m => py_contains keyword (py_lower m))

/-- The discover contract as the spec words it: the identifiers containing
the keyword compared case-insensitively (both sides lowercased). -/
def discoverSpec (keyword : Str) (models : List Str) : List Str :=
  models.filter (fun m => py_contains (py_lower keyword) (py_lower m))

lemma py_startswith_self_append (p s : Str) : py_startswith p (p ++ s) = true := by
  induction p with
  | nil => rfl
  | cons c cs ih => simp [py_startswith, ih]

lemma py_startswith_mem {p s : Str} (h : py_startswith p s = true) :
    ∀ c ∈ p, c ∈ s := by
  induction p generalizing s with
  | nil => intro c hc; cases hc
  | cons a as ih =>
    cases s with
    | nil => cases h
    | cons d ds =>
      simp only [py_startswith, Bool.and_eq_true, decide_eq_true_eq] at h
      intro c hc
      cases hc with
      | head => exact h.1 ▸ List.mem_cons_self d ds
      | tail _ hm => exact List.mem_cons_of_mem d (ih h.2 c hm)

lemma py_split_ne_nil (sep : Char) (l : Str) : py_split sep l ≠ [] := by
  cases l with
  | nil => simp [py_split]
  | cons c rest =>
    simp only [py_split]
    cases hsp : py_split sep rest with
    | nil => simp
    | cons s ss =>
      by_cases hc : c = sep <;> simp [hc]

lemma py_split_no_sep {sep : Char} {l : Str} (h : sep ∉ l) :
    py_split sep l = [l] := by
  induction l with
  | nil => rfl
  | cons c rest ih =>
    have hcs : c ≠ sep := fun he => h (he ▸ List.mem_cons_self c rest)
    have hr : sep ∉ rest := fun hm => h (List.mem_cons_of_mem c hm)
    simp [py_split, ih hr, hcs]

lemma py_split_append_sep {sep : Char} {xs ys : Str} (h : sep ∉ xs) :
    py_split sep (xs ++ sep :: ys) = xs :: py_split sep ys := by
  induction xs with
  | nil =>
    simp only [List.nil_append, py_split]
    cases hsp : py_split sep ys with
    | nil => exact absurd hsp (py_split_ne_nil sep ys)
    | cons s ss => simp
  | cons x xs ih =>
    have hxs : x ≠ sep := fun he => h (he ▸ List.mem_cons_self x xs)
    have hr : sep ∉ xs := fun hm => h (List.mem_cons_of_mem x hm)
    simp only [List.cons_append, py_split, List.append_eq]
    rw [ih hr]
    simp [hxs]

lemma py_lower_fix {s : Str} (h : ∀ c ∈ s, ¬('A' ≤ c ∧ c ≤ 'Z')) :
    py_lower s = s := by
  induction s with
  | nil => rfl
  | cons c rest ih =>
    have hc : py_lower_char c = c := by
      simp [py_lower_char, h c (List.mem_cons_self c rest)]
    have hr : py_lower rest = rest :=
      ih (fun d hd => h d (List.mem_cons_of_mem c hd))
    simp only [py_lower, List.map_cons] at *
    rw [hc]
    exact congrArg (c :: ·) hr

lemma mkFilename_ts_inj {mid ts1 ts2 : Str} {i : Nat}
    (h : mkFilename mid ts1 i = mkFilename mid ts2 i) : ts1 = ts2 := by
  unfold mkFilename at h
  have h1 := List.append_cancel_right h
  have h2 := List.append_cancel_right h1
  have h3 := List.append_cancel_right h2
  exact List.append_cancel_left h3

lemma tryArtifacts_shape (mid : Str) (arts : List Artifact) :
    ∀ i0 : Nat,
      (∃ j bytes, ∀ ts, tryArtifacts mid ts i0 arts =
        (some (mkFilename mid ts j), [(mkFilename mid ts j, bytes)])) ∨
      (∀ ts, tryArtifacts mid ts i0 arts = (none, [])) := by
  induction arts with
  | nil => intro i0; right; intro ts; rfl
  | cons a rest ih =>
    intro i0
    cases hb : a.base64 with
    | none =>
      rcases ih (i0 + 1) with ⟨j, bytes, hall⟩ | hall
      · left; exact ⟨j, bytes, fun ts => by simp [tryArtifacts, hb, hall ts]⟩
      · right; intro ts; simp [tryArtifacts, hb, hall ts]
    | some b =>
      cases hs : save_image_from_base64 b with
      | some bytes =>
        left; exact ⟨i0, bytes, fun ts => by simp [tryArtifacts, hb, hs]⟩
      | none =>
        rcases ih (i0 + 1) with ⟨j, bytes, hall⟩ | hall
        · left; exact ⟨j, bytes, fun ts => by simp [tryArtifacts, hb, hs, hall ts]⟩
        · right; intro ts; simp [tryArtifacts, hb, hs, hall ts]

lemma tryImages_shape (mid : Str) (imgs : List Str) :
    ∀ i0 : Nat,
      (∃ j bytes, ∀ ts, tryImages mid ts i0 imgs =
        (some (mkFilename mid ts j), [(mkFilename mid ts j, bytes)])) ∨
      (∀ ts, tryImages mid ts i0 imgs = (none, [])) := by
  induction imgs with
  | nil => intro i0; right; intro ts; rfl
  | cons b rest ih =>
    intro i0
    cases hs : save_image_from_base64 b with
    | some bytes =>
      left; exact ⟨i0, bytes, fun ts => by simp [tryImages, hs]⟩
    | none =>
      rcases ih (i0 + 1) with ⟨j, bytes, hall⟩ | hall
      · left; exact ⟨j, bytes, fun ts => by simp [tryImages, hs, hall ts]⟩
      · right; intro ts; simp [tryImages, hs, hall ts]

lemma attemptModel_shape (t : Str → Option SDResponse) (mid : Str) :
    (∃ i bytes, ∀ ts, attemptModel t ts mid =
      (some (mkFilename mid ts i), [(mkFilename mid ts i, bytes)])) ∨
    (∀ ts, attemptModel t ts mid = (none, [])) := by
  cases ht : t mid with
  | none => right; intro ts; simp [attemptModel, ht]
  | some r =>
    cases ha : r.artifacts with
    | some arts =>
      rcases tryArtifacts_shape mid arts 0 with ⟨j, bytes, hall⟩ | hall
      · left; exact ⟨j, bytes, fun ts => by simp [attemptModel, ht, ha, hall ts]⟩
      · right; intro ts; simp [attemptModel, ht, ha, hall ts]
    | none =>
      cases hi : r.images with
      | some imgs =>
        rcases tryImages_shape mid imgs 0 with ⟨j, bytes, hall⟩ | hall
        · left; exact ⟨j, bytes, fun ts => by simp [attemptModel, ht, ha, hi, hall ts]⟩
        · right; intro ts; simp [attemptModel, ht, ha, hi, hall ts]
      | none => right; intro ts; simp [attemptModel, ht, ha, hi]

lemma generate_image_shape (t : Str → Option SDResponse) (ms : List Str) :
    (∃ mid ∈ ms, ∃ i bytes, ∀ ts, generate_image t ts ms =
      (some (mkFilename mid ts i), [(mkFilename mid ts i, bytes)])) ∨
    (∀ ts, generate_image t ts ms = (none, [])) := by
  induction ms with
  | nil => right; intro ts; rfl
  | cons mid rest ih =>
    rcases attemptModel_shape t mid with ⟨i, bytes, hall⟩ | hall
    · left
      exact ⟨mid, List.mem_cons_self mid rest, i, bytes,
        fun ts => by simp [generate_image, hall ts]⟩
    · rcases ih with ⟨mid2, hm2, i, bytes, hall2⟩ | hall2
      · left
        exact ⟨mid2, List.mem_cons_of_mem mid hm2, i, bytes,
          fun ts => by simp [generate_image, hall ts, hall2 ts]⟩
      · right; intro ts; simp [generate_image, hall ts, hall2 ts]

lemma attemptModel_congr {t t' : Str → Option SDResponse} {mid : Str}
    (h : t' mid = t mid) (ts : Str) :
    attemptModel t' ts mid = attemptModel t ts mid := by
  unfold attemptModel
  rw [h]

lemma attemptModel_fail_writes {t : Str → Option SDResponse} {ts mid : Str}
    (h : (attemptModel t ts mid).1 = none) :
    attemptModel t ts mid = (none, []) := by
  rcases attemptModel_shape t mid with ⟨i, bytes, hall⟩ | hall
  · rw [hall ts] at h
    simp at h
  · exact hall ts

lemma generate_first_success (t : Str → Option SDResponse) (ts : Str)
    (ms1 ms2 : List Str) (m f : Str) (w : List (Str × List Nat))
    (hfail : ∀ x ∈ ms1, (attemptModel t ts x).1 = none)
    (hsucc : attemptModel t ts m = (some f, w)) :
    generate_image t ts (ms1 ++ m :: ms2) = (some f, w) := by
  induction ms1 with
  | nil => simp [generate_image, hsucc]
  | cons x xs ih =>
    have hx := attemptModel_fail_writes (hfail x (List.mem_cons_self x xs))
    have ihh := ih (fun y hy => hfail y (List.mem_cons_of_mem x hy))
    simp [generate_image, hx, ihh]

lemma tryArtifacts_all_absent (mid ts : Str) :
    ∀ arts : List Artifact, (∀ a ∈ arts, a.base64 = none) →
      ∀ i0, tryArtifacts mid ts i0 arts = (none, []) := by
  intro arts
  induction arts with
  | nil => intro _ _; rfl
  | cons a rest ih =>
    intro hb i0
    have ha := hb a (List.mem_cons_self a rest)
    simp [tryArtifacts, ha,
      ih (fun y hy => hb y (List.mem_cons_of_mem a hy)) (i0 + 1)]

/-- C1: for every ordered provider list, generate_image tries the providers
strictly in the caller-supplied order: when every provider of the prefix
fails and provider m succeeds (persists an artifact), the call returns the
success of m, and the result is unchanged under any transport that agrees
with the original on the prefix and on m — so the attempt of every provider
after m is never invoked. -/
theorem generate_first_success_ignores_later_providers
    (t t' : Str → Option SDResponse) (ts : Str) (ms1 ms2 : List Str)
    (m f : Str) (w : List (Str × List Nat))
    (hfail : ∀ x ∈ ms1, (attemptModel t ts x).1 = none)
    (hsucc : attemptModel t ts m = (some f, w))
    (hagree : ∀ x, x ∈ ms1 ∨ x = m → t' x = t x) :
    generate_image t ts (ms1 ++ m :: ms2) = (some f, w) ∧
    generate_image t' ts (ms1 ++ m :: ms2) = (some f, w) := by
  constructor
  · exact generate_first_success t ts ms1 ms2 m f w hfail hsucc
  · apply generate_first_success
    · intro x hx
      rw [attemptModel_congr (hagree x (Or.inl hx)) ts]
      exact hfail x hx
    · rw [attemptModel_congr (hagree m (Or.inr rfl)) ts]
      exact hsucc

/-- C1 witness: with provider a failing, provider b succeeding, and a second
transport that differs only on the later provider c, both runs return the
artifact of b. -/
theorem generate_first_success_ignores_later_providers_witness :
    generate_image
      (fun x => if x = str "b" then some ⟨some [⟨some (str "aGk=")⟩], none⟩ else none)
      (str "20240101_000000") ([str "a"] ++ str "b" :: [str "c"]) =
      (some (mkFilename (str "b") (str "20240101_000000") 0),
       [(mkFilename (str "b") (str "20240101_000000") 0, [104, 105])]) ∧
    generate_image
      (fun x => if x = str "c" then some ⟨some [⟨some (str "aGk=")⟩], none⟩
        else if x = str "b" then some ⟨some [⟨some (str "aGk=")⟩], none⟩ else none)
      (str "20240101_000000") ([str "a"] ++ str "b" :: [str "c"]) =
      (some (mkFilename (str "b") (str "20240101_000000") 0),
       [(mkFilename (str "b") (str "20240101_000000") 0, [104, 105])]) := by
  apply generate_first_success_ignores_later_providers
  · intro x hx
    rw [List.mem_singleton] at hx
    subst hx
    decide
  · decide
  · intro x hx
    rcases hx with hx | hx
    · rw [List.mem_singleton] at hx
      subst hx
      decide
    · subst hx
      decide

/-- C2 counterexample: with two providers and a transport on which every
attempt fails, generate_image returns a bare none carrying no outcome
information — not an OverallFailure value with one AttemptOutcome per
attempted provider. -/
theorem generate_total_failure_bare_none_cex :
    generate_image (fun _ => none) (str "20240101_000000")
      [str "p1", str "p2"] = (none, []) := by decide

/-- C2 amended: for every provider list (including the empty list), when
every attempt fails, generate_image returns none with no file written; the
code carries no per-attempt outcome list. -/
theorem generate_total_failure_returns_none
    (t : Str → Option SDResponse) (ts : Str) (ms : List Str)
    (hfail : ∀ m ∈ ms, (attemptModel t ts m).1 = none) :
    generate_image t ts ms = (none, []) := by
  induction ms with
  | nil => rfl
  | cons mid rest ih =>
    have h1 := attemptModel_fail_writes (hfail mid (List.mem_cons_self mid rest))
    have h2 := ih (fun y hy => hfail y (List.mem_cons_of_mem mid hy))
    simp [generate_image, h1, h2]

/-- C2 amended witness: a concrete all-failing run returns none. -/
theorem generate_total_failure_returns_none_witness :
    generate_image (fun _ => none) (str "20240101_000000") [str "p1"] =
      (none, []) :=
  generate_total_failure_returns_none _ _ _ (by decide)

/-- C3: every transport-level failure seen by an adapter — a non-success
status code or a raised exception (timeouts raise) — is converted into a
returned None value; the adapter functions are total, so no fault
propagates to the orchestrator. -/
theorem adapter_converts_transport_failure_to_none :
    (∀ (s : Nat) (b : OpenAIResp), s ≠ 200 →
      generate_image_via_gateway (HttpOutcome.response s b) = none) ∧
    generate_image_via_gateway HttpOutcome.exc = none ∧
    generate_image_stability_ai InvokeOutcome.exc = none := by
  refine ⟨?_, rfl, rfl⟩
  intro s b hs
  simp [generate_image_via_gateway, hs]

/-- C3 witness: a 403 response and an exception each come back as None. -/
theorem adapter_converts_transport_failure_to_none_witness :
    generate_image_via_gateway (HttpOutcome.response 403 ⟨none⟩) = none ∧
    generate_image_via_gateway HttpOutcome.exc = none ∧
    generate_image_stability_ai InvokeOutcome.exc = none :=
  ⟨adapter_converts_transport_failure_to_none.1 403 ⟨none⟩ (by decide),
   adapter_converts_transport_failure_to_none.2.1,
   adapter_converts_transport_failure_to_none.2.2⟩

/-- C4 counterexample: a provider whose transport succeeds with an empty
artifact list produces a bare none from generate_image — no failure value
carrying the reason string claimed by the spec exists anywhere in the
result. -/
theorem empty_payload_no_reason_cex :
    generate_image
      (fun m => if m = str "p1" then some ⟨some [], none⟩ else none)
      (str "20240101_000000") [str "p1"] = (none, []) := by decide

/-- C4 amended: when transport succeeds but no artifact carries a base64
field, the attempt persists nothing and yields none, and generate_image
over that single provider returns bare none; no distinct reason (and no
reason at all) is reported. -/
theorem empty_payload_attempt_yields_none
    (t : Str → Option SDResponse) (ts mid : Str) (arts : List Artifact)
    (ht : t mid = some ⟨some arts, none⟩)
    (hb : ∀ a ∈ arts, a.base64 = none) :
    attemptModel t ts mid = (none, []) ∧
    generate_image t ts [mid] = (none, []) := by
  have h1 : attemptModel t ts mid = (none, []) := by
    simp [attemptModel, ht, tryArtifacts_all_absent mid ts arts hb 0]
  exact ⟨h1, by simp [generate_image, h1]⟩

/-- C4 amended witness: the empty artifact list on a concrete provider. -/
theorem empty_payload_attempt_yields_none_witness :
    attemptModel (fun m => if m = str "p1" then some ⟨some [], none⟩ else none)
      (str "20240101_000000") (str "p1") = (none, []) ∧
    generate_image (fun m => if m = str "p1" then some ⟨some [], none⟩ else none)
      (str "20240101_000000") [str "p1"] = (none, []) :=
  empty_payload_attempt_yields_none _ _ _ [] (by decide) (by decide)

lemma tryArtifacts_first_success (mid ts : Str) :
    ∀ (arts : List Artifact) (i0 k : Nat) (ak : Artifact) (b : Str)
      (bytes : List Nat),
      (∀ a ∈ arts.take k, saveArtifact a = none) →
      arts.get? k = some ak →
      ak.base64 = some b →
      save_image_from_base64 b = some bytes →
      tryArtifacts mid ts i0 arts =
        (some (mkFilename mid ts (i0 + k)),
         [(mkFilename mid ts (i0 + k), bytes)]) := by
  intro arts
  induction arts with
  | nil =>
    intro i0 k ak b bytes _ hk _ _
    simp at hk
  | cons a rest ih =>
    intro i0 k ak b bytes hprev hk hb hsave
    cases k with
    | zero =>
      rw [List.get?_cons_zero] at hk
      injection hk with hk
      subst hk
      simp [tryArtifacts, hb, hsave]
    | succ k2 =>
      have ha : saveArtifact a = none :=
        hprev a (by rw [List.take_succ_cons]; exact List.mem_cons_self _ _)
      have hrest : ∀ x ∈ rest.take k2, saveArtifact x = none := fun x hx =>
        hprev x (by rw [List.take_succ_cons]; exact List.mem_cons_of_mem a hx)
      have hk2 : rest.get? k2 = some ak := by
        rw [List.get?_cons_succ] at hk
        exact hk
      have ihh := ih (i0 + 1) k2 ak b bytes hrest hk2 hb hsave
      have harith : i0 + 1 + k2 = i0 + (k2 + 1) := by omega
      rw [harith] at ihh
      cases hab : a.base64 with
      | none => simp [tryArtifacts, hab, ihh]
      | some br =>
        have hsb : save_image_from_base64 br = none := by
          unfold saveArtifact at ha
          rw [hab] at ha
          exact ha
        simp [tryArtifacts, hab, hsb, ihh]

lemma tryImages_first_success (mid ts : Str) :
    ∀ (imgs : List Str) (i0 k : Nat) (b : Str) (bytes : List Nat),
      (∀ x ∈ imgs.take k, save_image_from_base64 x = none) →
      imgs.get? k = some b →
      save_image_from_base64 b = some bytes →
      tryImages mid ts i0 imgs =
        (some (mkFilename mid ts (i0 + k)),
         [(mkFilename mid ts (i0 + k), bytes)]) := by
  intro imgs
  induction imgs with
  | nil =>
    intro i0 k b bytes _ hk _
    simp at hk
  | cons x rest ih =>
    intro i0 k b bytes hprev hk hsave
    cases k with
    | zero =>
      rw [List.get?_cons_zero] at hk
      injection hk with hk
      subst hk
      simp [tryImages, hsave]
    | succ k2 =>
      have hx : save_image_from_base64 x = none :=
        hprev x (by rw [List.take_succ_cons]; exact List.mem_cons_self _ _)
      have hrest : ∀ y ∈ rest.take k2, save_image_from_base64 y = none :=
        fun y hy =>
          hprev y (by rw [List.take_succ_cons]; exact List.mem_cons_of_mem x hy)
      have hk2 : rest.get? k2 = some b := by
        rw [List.get?_cons_succ] at hk
        exact hk
      have ihh := ih (i0 + 1) k2 b bytes hrest hk2 hsave
      have harith : i0 + 1 + k2 = i0 + (k2 + 1) := by omega
      rw [harith] at ihh
      simp [tryImages, hx, ihh]

/-- C5 counterexample: a successful attempt whose response carries two
extractable payloads persists exactly one file (the remaining payload is
not persisted), and a successful attempt whose first payload fails to
decode returns the artifact of the second payload, not of the first —
together refuting the claim as stated at concrete inputs. -/
theorem remaining_payloads_not_persisted_cex :
    generate_image
      (fun m => if m = str "p1" then
        some ⟨some [⟨some (str "aGk=")⟩, ⟨some (str "aGVsbG8=")⟩], none⟩ else none)
      (str "20240101_000000") [str "p1"] =
      (some (mkFilename (str "p1") (str "20240101_000000") 0),
       [(mkFilename (str "p1") (str "20240101_000000") 0, [104, 105])]) ∧
    (generate_image
      (fun m => if m = str "p1" then
        some ⟨some [⟨some (str "aGk=")⟩, ⟨some (str "aGVsbG8=")⟩], none⟩ else none)
      (str "20240101_000000") [str "p1"]).2.length = 1 ∧
    generate_image
      (fun m => if m = str "p1" then
        some ⟨some [⟨some (str "aGk")⟩, ⟨some (str "aGk=")⟩], none⟩ else none)
      (str "20240101_000000") [str "p1"] =
      (some (mkFilename (str "p1") (str "20240101_000000") 1),
       [(mkFilename (str "p1") (str "20240101_000000") 1, [104, 105])]) := by decide

/-- C5 amended: every successful generate_image call persists exactly the
one file it returns, and a successful attempt returns the artifact of the
first payload whose save succeeds, at that payload's enumerate index — for
the artifact-list family the first artifact (in list order) carrying a
base64 field that decodes, every earlier artifact lacking the field or
failing to decode; for the image-list family the first entry that decodes —
and the remaining payloads are not persisted. Stated over an arbitrary
failing provider prefix, so every successful attempt is covered. -/
theorem generate_persists_only_first_successful_payload :
    (∀ (t : Str → Option SDResponse) (ts : Str) (ms1 ms2 : List Str)
       (mid : Str) (r : SDResponse) (arts : List Artifact) (k : Nat)
       (ak : Artifact) (b : Str) (bytes : List Nat),
      (∀ x ∈ ms1, (attemptModel t ts x).1 = none) →
      t mid = some r → r.artifacts = some arts →
      (∀ a ∈ arts.take k, saveArtifact a = none) →
      arts.get? k = some ak → ak.base64 = some b →
      save_image_from_base64 b = some bytes →
      generate_image t ts (ms1 ++ mid :: ms2) =
        (some (mkFilename mid ts k), [(mkFilename mid ts k, bytes)])) ∧
    (∀ (t : Str → Option SDResponse) (ts : Str) (ms1 ms2 : List Str)
       (mid : Str) (r : SDResponse) (imgs : List Str) (k : Nat)
       (b : Str) (bytes : List Nat),
      (∀ x ∈ ms1, (attemptModel t ts x).1 = none) →
      t mid = some r → r.artifacts = none → r.images = some imgs →
      (∀ x ∈ imgs.take k, save_image_from_base64 x = none) →
      imgs.get? k = some b →
      save_image_from_base64 b = some bytes →
      generate_image t ts (ms1 ++ mid :: ms2) =
        (some (mkFilename mid ts k), [(mkFilename mid ts k, bytes)])) ∧
    (∀ (t : Str → Option SDResponse) (ts : Str) (ms : List Str) (f : Str)
       (ws : List (Str × List Nat)),
      generate_image t ts ms = (some f, ws) → ∃ bytes, ws = [(f, bytes)]) := by
  refine ⟨?_, ?_, ?_⟩
  · intro t ts ms1 ms2 mid r arts k ak b bytes hpre ht hr hprev hk hb hsave
    have h1 := tryArtifacts_first_success mid ts arts 0 k ak b bytes
      hprev hk hb hsave
    simp only [Nat.zero_add] at h1
    have hattempt : attemptModel t ts mid =
        (some (mkFilename mid ts k), [(mkFilename mid ts k, bytes)]) := by
      simp [attemptModel, ht, hr, h1]
    exact generate_first_success t ts ms1 ms2 mid _ _ hpre hattempt
  · intro t ts ms1 ms2 mid r imgs k b bytes hpre ht hra hri hprev hk hsave
    have h1 := tryImages_first_success mid ts imgs 0 k b bytes hprev hk hsave
    simp only [Nat.zero_add] at h1
    have hattempt : attemptModel t ts mid =
        (some (mkFilename mid ts k), [(mkFilename mid ts k, bytes)]) := by
      simp [attemptModel, ht, hra, hri, h1]
    exact generate_first_success t ts ms1 ms2 mid _ _ hpre hattempt
  · intro t ts ms f ws h
    rcases generate_image_shape t ms with ⟨mid, hm, i, bytes, hall⟩ | hall
    · have he := hall ts
      rw [h] at he
      simp only [Prod.mk.injEq, Option.some.injEq] at he
      obtain ⟨hf, hw⟩ := he
      exact ⟨bytes, by rw [hw, hf]⟩
    · have he := hall ts
      rw [h] at he
      simp at he

/-- C5 amended witness: a failing provider followed by an artifacts
response whose first artifact lacks the field and whose second fails to
decode persists exactly the file of the third payload at index 2, and an
images response whose first entry fails to decode persists exactly the
file of the second entry at index 1. -/
theorem generate_persists_only_first_successful_payload_witness :
    generate_image
      (fun m => if m = str "p1" then
        some ⟨some [⟨none⟩, ⟨some (str "aGk")⟩, ⟨some (str "aGk=")⟩], none⟩
        else none)
      (str "t1") ([str "p0"] ++ str "p1" :: [str "p2"]) =
      (some (mkFilename (str "p1") (str "t1") 2),
       [(mkFilename (str "p1") (str "t1") 2, [104, 105])]) ∧
    generate_image
      (fun m => if m = str "q1" then
        some ⟨none, some [str "aGk", str "aGk="]⟩ else none)
      (str "t1") ([] ++ str "q1" :: []) =
      (some (mkFilename (str "q1") (str "t1") 1),
       [(mkFilename (str "q1") (str "t1") 1, [104, 105])]) :=
  ⟨generate_persists_only_first_successful_payload.1
      (fun m => if m = str "p1" then
        some ⟨some [⟨none⟩, ⟨some (str "aGk")⟩, ⟨some (str "aGk=")⟩], none⟩
        else none)
      (str "t1") [str "p0"] [str "p2"] (str "p1")
      ⟨some [⟨none⟩, ⟨some (str "aGk")⟩, ⟨some (str "aGk=")⟩], none⟩
      [⟨none⟩, ⟨some (str "aGk")⟩, ⟨some (str "aGk=")⟩] 2
      ⟨some (str "aGk=")⟩ (str "aGk=") [104, 105]
      (by decide) (by decide) (by decide) (by decide) (by decide)
      (by decide) (by decide),
   generate_persists_only_first_successful_payload.2.1
      (fun m => if m = str "q1" then
        some ⟨none, some [str "aGk", str "aGk="]⟩ else none)
      (str "t1") [] [] (str "q1")
      ⟨none, some [str "aGk", str "aGk="]⟩ [str "aGk", str "aGk="] 1
      (str "aGk=") [104, 105]
      (by decide) (by decide) (by decide) (by decide) (by decide)
      (by decide) (by decide)⟩

/-- C6 counterexample: the gateway script persists an artifact produced by
the provider stabilityai.stable-diffusion-xl-v1 under a path with no
provider component at all, so the path does not match the claimed pattern
with the sanitized provider identifier. -/
theorem main_filename_lacks_provider_cex :
    mainGenerate
      (fun m => if m = str "stabilityai.stable-diffusion-xl-v1" then
        some ⟨some [⟨some (str "aGk=")⟩]⟩ else none)
      (fun _ => none) (fun _ => str "20240101_000000") 0
      [str "stabilityai.stable-diffusion-xl-v1"] =
      (some (mkFilenameMain (str "20240101_000000") 0),
       [(mkFilenameMain (str "20240101_000000") 0, [104, 105])]) ∧
    mkFilenameMain (str "20240101_000000") 0 ≠
      mkFilename (str "stabilityai.stable-diffusion-xl-v1")
        (str "20240101_000000") 0 := by decide

/-- C6 amended: every artifact persisted by
StableDiffusionImageGenerator.generate_image has a path of the claimed
pattern — fixed prefix, the provider identifier with colon and dot replaced
by underscore, the single timestamp captured at the call (shared by every
payload of the call), the payload index, and the png suffix — while the
gateway script main persists under a pattern with no provider component and
a per-payload timestamp. -/
theorem generate_image_filename_pattern
    (t : Str → Option SDResponse) (ts : Str) (ms : List Str) (f : Str)
    (ws : List (Str × List Nat))
    (h : generate_image t ts ms = (some f, ws)) :
    ∃ mid ∈ ms, ∃ i bytes, f = mkFilename mid ts i ∧ ws = [(f, bytes)] := by
  rcases generate_image_shape t ms with ⟨mid, hm, i, bytes, hall⟩ | hall
  · have he := hall ts
    rw [h] at he
    simp only [Prod.mk.injEq, Option.some.injEq] at he
    obtain ⟨hf, hw⟩ := he
    exact ⟨mid, hm, i, bytes, hf, by rw [hw, hf]⟩
  · have he := hall ts
    rw [h] at he
    simp at he

/-- C6 amended witness: a concrete successful run of the class generator
produces a path of the pattern. -/
theorem generate_image_filename_pattern_witness :
    ∃ mid ∈ [str "stability.stable-diffusion-xl-v1:0"], ∃ i bytes,
      mkFilename (str "stability.stable-diffusion-xl-v1:0") (str "t1") 0 =
        mkFilename mid (str "t1") i ∧
      [(mkFilename (str "stability.stable-diffusion-xl-v1:0") (str "t1") 0,
        ([104, 105] : List Nat))] =
        [(mkFilename (str "stability.stable-diffusion-xl-v1:0") (str "t1") 0, bytes)] :=
  generate_image_filename_pattern
    (fun m => if m = str "stability.stable-diffusion-xl-v1:0" then
      some ⟨some [⟨some (str "aGk=")⟩], none⟩ else none)
    (str "t1") [str "stability.stable-diffusion-xl-v1:0"] _ _ (by decide)

/-- C7: two successful generate_image calls with the same transport and
provider list but distinct timestamps return distinct file paths, and each
run wrote its own file. -/
theorem two_calls_distinct_filenames
    (t : Str → Option SDResponse) (ms : List Str) (ts1 ts2 f1 f2 : Str)
    (w1 w2 : List (Str × List Nat))
    (h1 : generate_image t ts1 ms = (some f1, w1))
    (h2 : generate_image t ts2 ms = (some f2, w2))
    (hts : ts1 ≠ ts2) :
    f1 ≠ f2 ∧ f1 ∈ w1.map Prod.fst ∧ f2 ∈ w2.map Prod.fst := by
  rcases generate_image_shape t ms with ⟨mid, hm, i, bytes, hall⟩ | hall
  · have e1 := hall ts1
    have e2 := hall ts2
    rw [h1] at e1
    rw [h2] at e2
    simp only [Prod.mk.injEq, Option.some.injEq] at e1 e2
    obtain ⟨hf1, hw1⟩ := e1
    obtain ⟨hf2, hw2⟩ := e2
    refine ⟨?_, ?_, ?_⟩
    · intro he
      apply hts
      exact @mkFilename_ts_inj mid ts1 ts2 i (by rw [← hf1, ← hf2]; exact he)
    · rw [hw1, hf1]
      simp
    · rw [hw2, hf2]
      simp
  · have := hall ts1
    rw [h1] at this
    simp at this

/-- C7 witness: the same transport run at two distinct timestamps yields
two distinct paths, each written by its own call. -/
theorem two_calls_distinct_filenames_witness :
    mkFilename (str "p1") (str "20240101_000001") 0 ≠
      mkFilename (str "p1") (str "20240101_000002") 0 ∧
    mkFilename (str "p1") (str "20240101_000001") 0 ∈
      ([(mkFilename (str "p1") (str "20240101_000001") 0,
         ([104, 105] : List Nat))]).map Prod.fst ∧
    mkFilename (str "p1") (str "20240101_000002") 0 ∈
      ([(mkFilename (str "p1") (str "20240101_000002") 0,
         ([104, 105] : List Nat))]).map Prod.fst :=
  two_calls_distinct_filenames
    (fun m => if m = str "p1" then some ⟨some [⟨some (str "aGk=")⟩], none⟩ else none)
    [str "p1"] (str "20240101_000001") (str "20240101_000002") _ _ _ _
    (by decide) (by decide) (by decide)

/-- C8: for every text over the base64 alphabet, persisting the blob with a
data-URL header prefixed writes byte-for-byte the same content as
persisting the bare blob: the saver strips everything up to and including
the first comma before decoding. -/
theorem data_url_prefix_stripped
    (b : Str) (hb : ∀ c ∈ b, b64alpha c = true) :
    save_image_from_base64 (str "data:image/png;base64," ++ b) =
    save_image_from_base64 b := by
  have hcomma : ',' ∉ b := by
    intro hm
    have h1 := hb ',' hm
    have h2 : b64alpha ',' = false := by decide
    rw [h2] at h1
    cases h1
  have hpre : py_startswith (str "data:image")
      (str "data:image/png;base64," ++ b) = true := by
    have hsplit : str "data:image/png;base64," =
        str "data:image" ++ str "/png;base64," := by decide
    rw [hsplit, List.append_assoc]
    exact py_startswith_self_append _ _
  have hbs : py_startswith (str "data:image") b = false := by
    cases hps : py_startswith (str "data:image") b with
    | false => rfl
    | true =>
      have hc := py_startswith_mem hps ':' (by decide)
      have h1 := hb ':' hc
      have h2 : b64alpha ':' = false := by decide
      rw [h2] at h1
      cases h1
  have hL : (py_split ',' (str "data:image/png;base64," ++ b)).get? 1 =
      some b := by
    have hx : ',' ∉ str "data:image/png;base64" := by decide
    have hdecomp : str "data:image/png;base64," ++ b =
        str "data:image/png;base64" ++ ',' :: b := by
      have h0 : str "data:image/png;base64," =
          str "data:image/png;base64" ++ [','] := by decide
      rw [h0, List.append_assoc]
      rfl
    rw [hdecomp, py_split_append_sep hx, py_split_no_sep hcomma]
    rfl
  simp only [save_image_from_base64, hpre, hbs, if_true, if_false,
    Bool.false_eq_true, ite_false, ite_true]
  simp only [hL]

/-- C8 witness: the blob aGk= decodes to the same bytes with and without
the data-URL header. -/
theorem data_url_prefix_stripped_witness :
    save_image_from_base64 (str "data:image/png;base64," ++ str "aGk=") =
    save_image_from_base64 (str "aGk=") :=
  data_url_prefix_stripped (str "aGk=") (by decide)

/-- C9: for every all-lowercase capability keyword and every backend model
listing, the discover filter returns exactly the identifiers containing the
keyword compared case-insensitively (the spec-side formulation lowercases
both sides), and when no identifier matches it returns the empty list
rather than a failure. -/
theorem discover_matches_case_insensitive_containment
    (keyword : Str) (models : List Str)
    (hk : ∀ c ∈ keyword, ¬('A' ≤ c ∧ c ≤ 'Z')) :
    discover keyword models = discoverSpec keyword models ∧
    ((∀ m ∈ models, py_contains (py_lower keyword) (py_lower m) = false) →
      discover keyword models = []) := by
  have hfix : py_lower keyword = keyword := py_lower_fix hk
  constructor
  · unfold discover discoverSpec
    rw [hfix]
  · intro hnone
    unfold discover
    rw [List.filter_eq_nil_iff]
    intro m hm
    have h1 := hnone m hm
    rw [hfix] at h1
    simp [h1]

/-- C9 witness: the keyword claude picks exactly the matching identifier
out of a mixed-case listing. -/
theorem discover_matches_case_insensitive_containment_witness :
    discover (str "claude") [str "Anthropic.Claude-3", str "titan.img"] =
      discoverSpec (str "claude") [str "Anthropic.Claude-3", str "titan.img"] ∧
    ((∀ m ∈ [str "Anthropic.Claude-3", str "titan.img"],
        py_contains (py_lower (str "claude")) (py_lower m) = false) →
      discover (str "claude") [str "Anthropic.Claude-3", str "titan.img"] = []) :=
  discover_matches_case_insensitive_containment (str "claude")
    [str "Anthropic.Claude-3", str "titan.img"] (by decide)

/-- C10: the model catalog returns the empty list on every transport
failure (non-success status or exception) exactly as it does on a listing
with no models, so the returned value cannot distinguish the two, and the
catalog call is a total function — it never raises. -/
theorem catalog_failure_indistinguishable_from_empty :
    (∀ (s : Nat) (b : ModelsBody), s ≠ 200 →
      get_available_models (HttpOutcome.response s b) = []) ∧
    get_available_models HttpOutcome.exc = [] ∧
    get_available_models (HttpOutcome.response 200 ⟨some []⟩) = [] ∧
    get_available_models (HttpOutcome.response 200 ⟨none⟩) = [] := by
  refine ⟨?_, by decide, by decide, by decide⟩
  intro s b hs
  simp [get_available_models, hs]

/-- C10 witness: a 500 response yields the same empty list as an empty
catalog. -/
theorem catalog_failure_indistinguishable_from_empty_witness :
    get_available_models (HttpOutcome.response 500 ⟨none⟩) = [] ∧
    get_available_models (HttpOutcome.response 200 ⟨some []⟩) = [] :=
  ⟨catalog_failure_indistinguishable_from_empty.1 500 ⟨none⟩ (by decide),
   catalog_failure_indistinguishable_from_empty.2.2.1⟩
